import Mathlib

/-!
Shallow embedding of the ISL29125 RGB ambient-light-sensor firmware
(`src/ISL29125/ISL29125.h` and `src/source/main.cpp`).

The repository ships only the driver header (register constants, method
declarations and doc comments) together with the application `main.cpp`;
the driver implementation file `ISL29125.cpp` is not part of the sources.
Driver method bodies below are therefore modelled from the specification
(get-or-set accessors with read-modify-write, destructive status read,
threshold selectors, sync-mode Run), while every constant and the whole
application layer are translated directly from the source files.

Machine bytes are `Nat` values; register containment in a byte (`< 256`)
is carried as an explicit hypothesis where a theorem needs it.  Every bus
transaction an operation performs is recorded in an explicit transaction
trace, mirroring the transport-mock call counter the specification uses
to state "performs zero bus transactions".
-/

set_option maxRecDepth 20000

namespace ISL29125

/-- Channel / mode selector constants, from `ISL29125.h` lines 21-28. -/
def ISL29125_G : Nat := 0x01

/-- Red channel selector (`ISL29125.h`). -/
def ISL29125_R : Nat := 0x02

/-- Blue channel selector (`ISL29125.h`). -/
def ISL29125_B : Nat := 0x03

/-- Red and Green mode (`ISL29125.h`). -/
def ISL29125_RG : Nat := 0x06

/-- Blue and Green mode (`ISL29125.h`). -/
def ISL29125_BG : Nat := 0x07

/-- Red, Green and Blue mode (`ISL29125.h`). -/
def ISL29125_RGB : Nat := 0x05

/-- Standby mode (`ISL29125.h`). -/
def ISL29125_STBY : Nat := 0x04

/-- Switch off a control (`ISL29125.h`). -/
def ISL29125_OFF : Nat := 0x00

/-- Low interrupt threshold write selector (`ISL29125.h`). -/
def ISL29125_LTH_W : Nat := 0x04

/-- High interrupt threshold write selector (`ISL29125.h`). -/
def ISL29125_HTH_W : Nat := 0x06

/-- Low interrupt threshold read selector (`ISL29125.h`). -/
def ISL29125_LTH_R : Nat := 0x02

/-- High interrupt threshold read selector (`ISL29125.h`). -/
def ISL29125_HTH_R : Nat := 0x03

/-- Full scale range 375 lux (`ISL29125.h`). -/
def ISL29125_375LX : Nat := 0x00

/-- Full scale range 10K lux (`ISL29125.h`). -/
def ISL29125_10KLX : Nat := 0x08

/-- 16-bit ADC resolution (`ISL29125.h`). -/
def ISL29125_16BIT : Nat := 0x00

/-- 12-bit ADC resolution (`ISL29125.h`). -/
def ISL29125_12BIT : Nat := 0x10

/-- IRQ persistence: once (`ISL29125.h`). -/
def ISL29125_PERS1 : Nat := 0x00

/-- IRQ persistence: twice (`ISL29125.h`). -/
def ISL29125_PERS2 : Nat := 0x04

/-- IRQ persistence: 4 times (`ISL29125.h`). -/
def ISL29125_PERS4 : Nat := 0x08

/-- IRQ persistence: 8 times (`ISL29125.h`). -/
def ISL29125_PERS8 : Nat := 0x0C

/-- Device state: the sensor's registers as seen over the bus.
`config1` packs operating mode, range and resolution; `config3` packs
persistence, IRQ-on-color and IRQ-on-conversion-done; `config2` holds
the IR compensation byte.  Channel data registers are in the physical
Green, Red, Blue order. -/
structure Device where
  config1 : Nat
  config2 : Nat
  config3 : Nat
  status : Nat
  thLow : Nat
  thHigh : Nat
  green : Nat
  red : Nat
  blue : Nat
deriving DecidableEq

/-- One bus transaction: a register read, a register write, or the
sync-mode start-conversion command. -/
inductive BusTx where
  | rd (addr len : Nat)
  | wr (addr len : Nat)
  | startConv
deriving DecidableEq

/-- Result of an accessor call: returned byte (or 16-bit value), the
device state afterwards, and the bus transactions performed. -/
structure AccResult where
  ret : Nat
  dev : Device
  txs : List BusTx
deriving DecidableEq

/-- Result of a channel read: validity flag, the caller's buffer after
the call, the device state afterwards, and the transactions performed. -/
structure ReadResult where
  fresh : Bool
  buf : List Nat
  dev : Device
  txs : List BusTx
deriving DecidableEq

/-- Modelled from the spec: `ISL29125::Status` (implementation file
`ISL29125.cpp` is absent from the repository).  Single-byte read of the
status register; the read itself clears the interrupt-pending bit
(bit 0) on the device. -/
def Status (d : Device) : AccResult :=
  { ret := d.status
    dev := { d with status := d.status &&& 0xFE }
    txs := [BusTx.rd 0x08 1] }

/-- Modelled from the spec: `ISL29125::RGBmode` (implementation absent).
Get-or-set accessor for the operating-mode field, bits [2:0] of the
mode-control register; sentinel 0xFF requests a pure read-decode, a
value in the enumerated legal set 0..7 performs a read-modify-write,
anything else is rejected before any bus transaction. -/
def RGBmode (d : Device) (mode : Nat) : AccResult :=
  if mode = 0xFF then
    { ret := d.config1 &&& 0x07, dev := d, txs := [BusTx.rd 0x01 1] }
  else if mode ≤ 7 then
    { ret := mode
      dev := { d with config1 := (d.config1 &&& 0xF8) ||| mode }
      txs := [BusTx.rd 0x01 1, BusTx.wr 0x01 1] }
  else
    { ret := 0xFF, dev := d, txs := [] }

/-- Modelled from the spec: `ISL29125::Range` (implementation absent).
Get-or-set accessor for the full-scale-range bit (0x08) of the
mode-control register; legal values are `ISL29125_375LX` (0x00) and
`ISL29125_10KLX` (0x08). -/
def Range (d : Device) (range : Nat) : AccResult :=
  if range = 0xFF then
    { ret := d.config1 &&& 0x08, dev := d, txs := [BusTx.rd 0x01 1] }
  else if range = 0x00 ∨ range = 0x08 then
    { ret := range
      dev := { d with config1 := (d.config1 &&& 0xF7) ||| range }
      txs := [BusTx.rd 0x01 1, BusTx.wr 0x01 1] }
  else
    { ret := 0xFF, dev := d, txs := [] }

/-- Modelled from the spec: `ISL29125::Resolution` (implementation
absent).  Get-or-set accessor for the ADC-resolution bit (0x10) of the
mode-control register; legal values `ISL29125_16BIT` (0x00) and
`ISL29125_12BIT` (0x10). -/
def Resolution (d : Device) (resol : Nat) : AccResult :=
  if resol = 0xFF then
    { ret := d.config1 &&& 0x10, dev := d, txs := [BusTx.rd 0x01 1] }
  else if resol = 0x00 ∨ resol = 0x10 then
    { ret := resol
      dev := { d with config1 := (d.config1 &&& 0xEF) ||| resol }
      txs := [BusTx.rd 0x01 1, BusTx.wr 0x01 1] }
  else
    { ret := 0xFF, dev := d, txs := [] }

/-- Modelled from the spec: `ISL29125::Persist` (implementation absent).
Get-or-set accessor for the interrupt-persistence field, bits [3:2] of
the interrupt-control register; legal values 0x00, 0x04, 0x08, 0x0C. -/
def Persist (d : Device) (persist : Nat) : AccResult :=
  if persist = 0xFF then
    { ret := d.config3 &&& 0x0C, dev := d, txs := [BusTx.rd 0x03 1] }
  else if persist = 0x00 ∨ persist = 0x04 ∨ persist = 0x08 ∨ persist = 0x0C then
    { ret := persist
      dev := { d with config3 := (d.config3 &&& 0xF3) ||| persist }
      txs := [BusTx.rd 0x03 1, BusTx.wr 0x03 1] }
  else
    { ret := 0xFF, dev := d, txs := [] }

/-- Modelled from the spec: `ISL29125::IRQonCnvDone` (implementation
absent).  Get-or-set accessor for the IRQ-on-conversion-done flag,
bit 4 of the interrupt-control register; legal values 0 and 1. -/
def IRQonCnvDone (d : Device) (irqen : Nat) : AccResult :=
  if irqen = 0xFF then
    { ret := if d.config3 &&& 0x10 = 0 then 0 else 1
      dev := d, txs := [BusTx.rd 0x03 1] }
  else if irqen ≤ 1 then
    { ret := irqen
      dev := { d with config3 := (d.config3 &&& 0xEF) ||| (irqen <<< 4) }
      txs := [BusTx.rd 0x03 1, BusTx.wr 0x03 1] }
  else
    { ret := 0xFF, dev := d, txs := [] }

/-- Modelled from the spec: `ISL29125::IRQonColor` (implementation
absent).  Get-or-set accessor for the IRQ-threshold-to-color field,
bits [1:0] of the interrupt-control register; legal values
`ISL29125_OFF`, `ISL29125_G`, `ISL29125_R`, `ISL29125_B` (0..3). -/
def IRQonColor (d : Device) (rgbmode : Nat) : AccResult :=
  if rgbmode = 0xFF then
    { ret := d.config3 &&& 0x03, dev := d, txs := [BusTx.rd 0x03 1] }
  else if rgbmode ≤ 3 then
    { ret := rgbmode
      dev := { d with config3 := (d.config3 &&& 0xFC) ||| rgbmode }
      txs := [BusTx.rd 0x03 1, BusTx.wr 0x03 1] }
  else
    { ret := 0xFF, dev := d, txs := [] }

/-- Modelled from the spec: `ISL29125::IRcomp` (implementation absent).
Get-or-set accessor for the IR-compensation register: bit 7 is a mode
bit and bits [5:0] a magnitude, so the legal values are the two disjoint
ranges 0..63 and 128..191 and the owned bit mask is 0xBF. -/
def IRcomp (d : Device) (ircomp : Nat) : AccResult :=
  if ircomp = 0xFF then
    { ret := d.config2 &&& 0xBF, dev := d, txs := [BusTx.rd 0x02 1] }
  else if ircomp ≤ 63 ∨ (128 ≤ ircomp ∧ ircomp ≤ 191) then
    { ret := ircomp
      dev := { d with config2 := (d.config2 &&& 0x40) ||| ircomp }
      txs := [BusTx.rd 0x02 1, BusTx.wr 0x02 1] }
  else
    { ret := 0xFF, dev := d, txs := [] }

/-- Modelled from the spec: `ISL29125::Read` (implementation absent).
Reads the status register (destructive for the interrupt-pending bit)
and derives the validity flag from the conversion-complete bit (0x02).
With no new conversion it returns false and leaves the caller's buffer
untouched.  Otherwise the selector picks the channel registers: the
all-three selector issues one contiguous 6-byte read spanning Green,
Red, Blue in that fixed device order and fills the buffer positionally
Green, Red, Blue. -/
def Read (d : Device) (color : Nat) (data : List Nat) : ReadResult :=
  let d1 : Device := { d with status := d.status &&& 0xFE }
  if d.status &&& 0x02 = 0 then
    { fresh := false, buf := data, dev := d1, txs := [BusTx.rd 0x08 1] }
  else if color = ISL29125_RGB then
    { fresh := true, buf := [d.green, d.red, d.blue], dev := d1
      txs := [BusTx.rd 0x08 1, BusTx.rd 0x09 6] }
  else if color = ISL29125_G then
    { fresh := true, buf := [d.green], dev := d1
      txs := [BusTx.rd 0x08 1, BusTx.rd 0x09 2] }
  else if color = ISL29125_R then
    { fresh := true, buf := [d.red], dev := d1
      txs := [BusTx.rd 0x08 1, BusTx.rd 0x0B 2] }
  else if color = ISL29125_B then
    { fresh := true, buf := [d.blue], dev := d1
      txs := [BusTx.rd 0x08 1, BusTx.rd 0x0D 2] }
  else
    { fresh := false, buf := data, dev := d1, txs := [BusTx.rd 0x08 1] }

/-- Modelled from the spec: `ISL29125::Threshold` (implementation
absent).  Write selectors (`ISL29125_LTH_W`, `ISL29125_HTH_W`) perform
a 2-byte write of the given value; read selectors (`ISL29125_LTH_R`,
`ISL29125_HTH_R`) ignore the value argument and perform a 2-byte read.
The returned value is the 16-bit value resident in the selected
register after the call. -/
def Threshold (d : Device) (reg : Nat) (thres : Nat) : AccResult :=
  if reg = ISL29125_LTH_W then
    { ret := thres, dev := { d with thLow := thres }, txs := [BusTx.wr 0x04 2] }
  else if reg = ISL29125_HTH_W then
    { ret := thres, dev := { d with thHigh := thres }, txs := [BusTx.wr 0x06 2] }
  else if reg = ISL29125_LTH_R then
    { ret := d.thLow, dev := d, txs := [BusTx.rd 0x04 2] }
  else if reg = ISL29125_HTH_R then
    { ret := d.thHigh, dev := d, txs := [BusTx.rd 0x06 2] }
  else
    { ret := 0, dev := d, txs := [] }

/-- Modelled from the spec: the constructor's trigger-mode selection
(`_ismode` in `ISL29125.h`: 0 no irq/sync mode, 1 irq mode, 2 sync
mode), fixed by which optional arguments (`irqsync` pin, user-ISR
pointer) are supplied at construction. -/
def ctorMode (hasIrqSyncPin hasFptr : Bool) : Nat :=
  if hasIrqSyncPin then (if hasFptr then 1 else 2) else 0

/-- Modelled from the spec: `ISL29125::Run` (implementation absent).
Only possible in sync mode (`_ismode = 2`): it issues exactly the
start-conversion command and returns success when the transport
accepts it; in any other mode it fails without a bus transaction. -/
def Run (ismode : Nat) (transportOk : Bool) : Bool × List BusTx :=
  if ismode = 2 then (transportOk, [BusTx.startConv]) else (false, [])

end ISL29125

namespace RGBApp

/-- The BLE RGB service state (`RGBService` in `main.cpp`): the three
characteristic values last written to the GATT server. -/
structure RGBService where
  red : Nat
  green : Nat
  blue : Nat
deriving DecidableEq

/-- `RGBService::updateRed` (`main.cpp` lines 39-42). -/
def updateRed (s : RGBService) (v : Nat) : RGBService := { s with red := v }

/-- `RGBService::updateGreen` (`main.cpp` lines 44-47). -/
def updateGreen (s : RGBService) (v : Nat) : RGBService := { s with green := v }

/-- `RGBService::updateBlue` (`main.cpp` lines 49-52). -/
def updateBlue (s : RGBService) (v : Nat) : RGBService := { s with blue := v }

/-- Application state from `main.cpp`: the globals `GRBdata`,
`data_present`, `sensorFlag`, `initFlag`, the `RGBApp` connection flag,
the sensor device and the BLE service. -/
structure AppState where
  connected : Bool
  sensorFlag : Bool
  initFlag : Bool
  tickerAttached : Bool
  data_present : Bool
  GRBdata : List Nat
  device : ISL29125.Device
  service : RGBService
deriving DecidableEq

/-- `updateMeasurments` (`main.cpp` lines 87-89), the Ticker callback
running in interrupt context: its body is exactly `sensorFlag = true;`,
so it performs no bus transaction and changes nothing else. -/
def updateMeasurments (st : AppState) : AppState × List ISL29125.BusTx :=
  ({ st with sensorFlag := true }, [])

/-- `RGBApp::updateRGB` (`main.cpp` lines 110-118): when connected,
reads all three channels into `GRBdata` and then writes the Red, Green
and Blue characteristics from `GRBdata[1]`, `GRBdata[0]`, `GRBdata[2]`
unconditionally (only the printf is guarded by `data_present`). -/
def updateRGB (st : AppState) : AppState × List ISL29125.BusTx :=
  if st.connected then
    let r := ISL29125.Read st.device ISL29125.ISL29125_RGB st.GRBdata
    let s1 := updateRed st.service (r.buf.getD 1 0)
    let s2 := updateGreen s1 (r.buf.getD 0 0)
    let s3 := updateBlue s2 (r.buf.getD 2 0)
    ({ st with data_present := r.fresh, GRBdata := r.buf,
               device := r.dev, service := s3 }, r.txs)
  else (st, [])

/-- One iteration of the `main` loop (`main.cpp` lines 184-199): if
`sensorFlag` is observed true, call `updateRGB` and clear the flag;
then the one-shot BLE-init branch (which performs no sensor operation)
attaches the ticker and clears `initFlag`. -/
def mainLoopIter (st : AppState) : AppState × List ISL29125.BusTx :=
  let p :=
    if st.sensorFlag then
      let q := updateRGB st
      ({ q.1 with sensorFlag := false }, q.2)
    else (st, [])
  let st2 :=
    if p.1.initFlag then { p.1 with tickerAttached := true, initFlag := false }
    else p.1
  (st2, p.2)

end RGBApp

namespace ISL29125

/-- A sample device state used by witnesses: operating mode RGB stored
in `config1`, all other registers zero. -/
def dev0 : Device :=
  { config1 := 0x05, config2 := 0, config3 := 0, status := 0
    thLow := 0, thHigh := 0, green := 0, red := 0, blue := 0 }

/-- A sample device with a completed conversion pending, an interrupt
pending, and the channel values of the specification's test vector. -/
def devFresh : Device :=
  { config1 := 0x05, config2 := 0, config3 := 0, status := 0x03
    thLow := 0, thHigh := 0, green := 0x1111, red := 0x2222, blue := 0x3333 }

end ISL29125

namespace RGBApp

/-- A sample connected application state whose device has no new
conversion available and whose buffer holds previously read values. -/
def stStale : AppState :=
  { connected := true, sensorFlag := true, initFlag := false
    tickerAttached := true, data_present := true
    GRBdata := [7, 8, 9], device := ISL29125.dev0
    service := { red := 0, green := 0, blue := 0 } }

/-- A sample connected application state whose device has fresh data. -/
def stFresh : AppState :=
  { connected := true, sensorFlag := true, initFlag := false
    tickerAttached := true, data_present := false
    GRBdata := [0, 0, 0], device := ISL29125.devFresh
    service := { red := 0, green := 0, blue := 0 } }

end RGBApp

section BitHelpers

/-- Distributing a mask over a bitwise or. -/
theorem land_lor_right (a b m : Nat) :
    (a ||| b) &&& m = (a &&& m) ||| (b &&& m) := by
  rw [Nat.and_comm, Nat.and_or_distrib_left, Nat.and_comm m a, Nat.and_comm m b]

/-- Reading back the owned field after a read-modify-write: if the new
value fits inside the owned mask and the clear mask is disjoint from it,
the masked result is exactly the new value. -/
theorem rmw_read (c v clearM ownM : Nat) (hv : v &&& ownM = v)
    (hcm : clearM &&& ownM = 0) : ((c &&& clearM) ||| v) &&& ownM = v := by
  rw [land_lor_right, Nat.and_assoc, hcm, Nat.and_zero, Nat.zero_or, hv]

/-- A sibling field is untouched by a read-modify-write: if the new
value is disjoint from the sibling mask and the clear mask keeps the
sibling bits, masking by the sibling mask is unchanged. -/
theorem rmw_keep (c v clearM sibM : Nat) (hv : v &&& sibM = 0)
    (hcm : clearM &&& sibM = sibM) :
    ((c &&& clearM) ||| v) &&& sibM = c &&& sibM := by
  rw [land_lor_right, Nat.and_assoc, hcm, hv, Nat.or_zero]

/-- Legal IR-compensation values fit the owned mask 0xBF and avoid the
reserved bit 0x40. -/
theorem ircomp_legal_bits (v : Nat) (h : v ≤ 63 ∨ (128 ≤ v ∧ v ≤ 191)) :
    v &&& 0xBF = v ∧ v &&& 0x40 = 0 := by
  have h256 : v < 256 := by omega
  have hall : ∀ w < 256, (w ≤ 63 ∨ (128 ≤ w ∧ w ≤ 191)) →
      w &&& 0xBF = w ∧ w &&& 0x40 = 0 := by decide
  exact hall v h256 h

/-- Legal operating-mode values fit the owned mask 0x07 and avoid the
range and resolution bits. -/
theorem mode_legal_bits (m : Nat) (h : m ≤ 7) :
    m &&& 0x07 = m ∧ m &&& 0x08 = 0 ∧ m &&& 0x10 = 0 := by
  have hall : ∀ w < 8, w &&& 0x07 = w ∧ w &&& 0x08 = 0 ∧ w &&& 0x10 = 0 := by
    decide
  exact hall m (by omega)

end BitHelpers

section AccessorLemmas

open ISL29125

/-- Get-mode call of `RGBmode` decodes bits [2:0] of the mode register. -/
theorem RGBmode_get (d : Device) : (RGBmode d 0xFF).ret = d.config1 &&& 0x07 := rfl

/-- Get-mode call of `Range` decodes bit 3 of the mode register. -/
theorem Range_get (d : Device) : (Range d 0xFF).ret = d.config1 &&& 0x08 := rfl

/-- Get-mode call of `Resolution` decodes bit 4 of the mode register. -/
theorem Resolution_get (d : Device) : (Resolution d 0xFF).ret = d.config1 &&& 0x10 := rfl

/-- Get-mode call of `Persist` decodes bits [3:2] of the irq register. -/
theorem Persist_get (d : Device) : (Persist d 0xFF).ret = d.config3 &&& 0x0C := rfl

/-- Get-mode call of `IRQonColor` decodes bits [1:0] of the irq register. -/
theorem IRQonColor_get (d : Device) : (IRQonColor d 0xFF).ret = d.config3 &&& 0x03 := rfl

/-- Get-mode call of `IRQonCnvDone` decodes bit 4 of the irq register. -/
theorem IRQonCnvDone_get (d : Device) :
    (IRQonCnvDone d 0xFF).ret = (if d.config3 &&& 0x10 = 0 then 0 else 1) := rfl

/-- Get-mode call of `IRcomp` decodes the 0xBF field of the IR register. -/
theorem IRcomp_get (d : Device) : (IRcomp d 0xFF).ret = d.config2 &&& 0xBF := rfl

/-- Device state after a valid `RGBmode` set: read-modify-write on the
owned bits [2:0]. -/
theorem RGBmode_set_dev (d : Device) (m : Nat) (h1 : m ≠ 0xFF) (h2 : m ≤ 7) :
    (RGBmode d m).dev = { d with config1 := (d.config1 &&& 0xF8) ||| m } := by
  simp only [RGBmode]; rw [if_neg h1, if_pos h2]

/-- Device state after a valid `Range` set. -/
theorem Range_set_dev (d : Device) (r : Nat) (h1 : r ≠ 0xFF)
    (h2 : r = 0x00 ∨ r = 0x08) :
    (Range d r).dev = { d with config1 := (d.config1 &&& 0xF7) ||| r } := by
  simp only [Range]; rw [if_neg h1, if_pos h2]

/-- Device state after a valid `Resolution` set. -/
theorem Resolution_set_dev (d : Device) (s : Nat) (h1 : s ≠ 0xFF)
    (h2 : s = 0x00 ∨ s = 0x10) :
    (Resolution d s).dev = { d with config1 := (d.config1 &&& 0xEF) ||| s } := by
  simp only [Resolution]; rw [if_neg h1, if_pos h2]

/-- Device state after a valid `Persist` set. -/
theorem Persist_set_dev (d : Device) (p : Nat) (h1 : p ≠ 0xFF)
    (h2 : p = 0x00 ∨ p = 0x04 ∨ p = 0x08 ∨ p = 0x0C) :
    (Persist d p).dev = { d with config3 := (d.config3 &&& 0xF3) ||| p } := by
  simp only [Persist]; rw [if_neg h1, if_pos h2]

/-- Device state after a valid `IRQonCnvDone` set. -/
theorem IRQonCnvDone_set_dev (d : Device) (b : Nat) (h1 : b ≠ 0xFF) (h2 : b ≤ 1) :
    (IRQonCnvDone d b).dev =
      { d with config3 := (d.config3 &&& 0xEF) ||| (b <<< 4) } := by
  simp only [IRQonCnvDone]; rw [if_neg h1, if_pos h2]

/-- Device state after a valid `IRQonColor` set. -/
theorem IRQonColor_set_dev (d : Device) (ic : Nat) (h1 : ic ≠ 0xFF) (h2 : ic ≤ 3) :
    (IRQonColor d ic).dev = { d with config3 := (d.config3 &&& 0xFC) ||| ic } := by
  simp only [IRQonColor]; rw [if_neg h1, if_pos h2]

/-- Device state after a valid `IRcomp` set. -/
theorem IRcomp_set_dev (d : Device) (v : Nat) (h1 : v ≠ 0xFF)
    (h2 : v ≤ 63 ∨ (128 ≤ v ∧ v ≤ 191)) :
    (IRcomp d v).dev = { d with config2 := (d.config2 &&& 0x40) ||| v } := by
  simp only [IRcomp]; rw [if_neg h1, if_pos h2]

end AccessorLemmas

open ISL29125 RGBApp

/-- Claim C1: with a new conversion available, `Read` with the all-three
selector `ISL29125_RGB` populates the caller's buffer positionally in
Green, Red, Blue order: `buf[0] = g`, `buf[1] = r`, `buf[2] = b`; the
physical Green-Red-Blue register order is never permuted. -/
theorem claim1_read_rgb_order (d : Device) (data : List Nat)
    (h : d.status &&& 0x02 ≠ 0) :
    (Read d ISL29125_RGB data).fresh = true ∧
    (Read d ISL29125_RGB data).buf = [d.green, d.red, d.blue] ∧
    (Read d ISL29125_RGB data).buf.getD 0 0 = d.green ∧
    (Read d ISL29125_RGB data).buf.getD 1 0 = d.red ∧
    (Read d ISL29125_RGB data).buf.getD 2 0 = d.blue := by
  simp [Read, h]

/-- Witness for C1 at the specification's test vector Green=0x1111,
Red=0x2222, Blue=0x3333. -/
theorem claim1_read_rgb_order_witness :
    devFresh.status &&& 0x02 ≠ 0 ∧
    (Read devFresh ISL29125_RGB [0, 0, 0]).buf = [0x1111, 0x2222, 0x3333] :=
  ⟨by decide,
   ((claim1_read_rgb_order devFresh [0, 0, 0] (by decide)).2.1).trans (by decide)⟩

/-- Claim C2 counterexample: the input 0xFF lies outside `RGBmode`'s
enumerated legal set 0..7, yet calling `RGBmode` with it performs a bus
transaction (the sentinel requests a read-back) and, on a device whose
stored mode is `ISL29125_RGB`, does not return 0xFF. -/
theorem claim2_invalid_counterexample :
    ¬ (0xFF ≤ 7) ∧ (RGBmode dev0 0xFF).txs ≠ [] ∧ (RGBmode dev0 0xFF).ret ≠ 0xFF := by
  decide

/-- Claim C2 (amended): for every get-or-set accessor and every input
outside its enumerated legal set other than the reserved sentinel 0xFF
(which requests a read-back), the call performs zero bus transactions,
leaves the device untouched, and returns 0xFF. -/
theorem claim2_invalid_rejected (d : Device) (v : Nat) (hs : v ≠ 0xFF) :
    (¬ v ≤ 7 → RGBmode d v = ⟨0xFF, d, []⟩) ∧
    (¬ (v = 0x00 ∨ v = 0x08) → Range d v = ⟨0xFF, d, []⟩) ∧
    (¬ (v = 0x00 ∨ v = 0x10) → Resolution d v = ⟨0xFF, d, []⟩) ∧
    (¬ (v = 0x00 ∨ v = 0x04 ∨ v = 0x08 ∨ v = 0x0C) → Persist d v = ⟨0xFF, d, []⟩) ∧
    (¬ v ≤ 1 → IRQonCnvDone d v = ⟨0xFF, d, []⟩) ∧
    (¬ v ≤ 3 → IRQonColor d v = ⟨0xFF, d, []⟩) ∧
    (¬ (v ≤ 63 ∨ (128 ≤ v ∧ v ≤ 191)) → IRcomp d v = ⟨0xFF, d, []⟩) := by
  refine ⟨?_, ?_, ?_, ?_, ?_, ?_, ?_⟩ <;> intro hbad
  · simp only [RGBmode]; rw [if_neg hs, if_neg hbad]
  · simp only [Range]; rw [if_neg hs, if_neg hbad]
  · simp only [Resolution]; rw [if_neg hs, if_neg hbad]
  · simp only [Persist]; rw [if_neg hs, if_neg hbad]
  · simp only [IRQonCnvDone]; rw [if_neg hs, if_neg hbad]
  · simp only [IRQonColor]; rw [if_neg hs, if_neg hbad]
  · simp only [IRcomp]; rw [if_neg hs, if_neg hbad]

/-- Witness for amended C2 at the illegal input 0x40. -/
theorem claim2_invalid_rejected_witness :
    RGBmode dev0 0x40 = ⟨0xFF, dev0, []⟩ ∧
    Range dev0 0x40 = ⟨0xFF, dev0, []⟩ ∧
    Resolution dev0 0x40 = ⟨0xFF, dev0, []⟩ ∧
    Persist dev0 0x40 = ⟨0xFF, dev0, []⟩ ∧
    IRQonCnvDone dev0 0x40 = ⟨0xFF, dev0, []⟩ ∧
    IRQonColor dev0 0x40 = ⟨0xFF, dev0, []⟩ ∧
    IRcomp dev0 0x40 = ⟨0xFF, dev0, []⟩ :=
  ⟨(claim2_invalid_rejected dev0 0x40 (by decide)).1 (by decide),
   (claim2_invalid_rejected dev0 0x40 (by decide)).2.1 (by decide),
   (claim2_invalid_rejected dev0 0x40 (by decide)).2.2.1 (by decide),
   (claim2_invalid_rejected dev0 0x40 (by decide)).2.2.2.1 (by decide),
   (claim2_invalid_rejected dev0 0x40 (by decide)).2.2.2.2.1 (by decide),
   (claim2_invalid_rejected dev0 0x40 (by decide)).2.2.2.2.2.1 (by decide),
   (claim2_invalid_rejected dev0 0x40 (by decide)).2.2.2.2.2.2 (by decide)⟩

/-- Claim C4: when no new conversion is available (conversion-complete
bit clear), `Read` returns false and leaves the caller's buffer
unchanged, for every selector. -/
theorem claim4_stale_keeps_buffer (d : Device) (color : Nat) (data : List Nat)
    (h : d.status &&& 0x02 = 0) :
    (Read d color data).fresh = false ∧ (Read d color data).buf = data := by
  simp [Read, h]

/-- Witness for C4 on a device with no conversion pending. -/
theorem claim4_stale_keeps_buffer_witness :
    dev0.status &&& 0x02 = 0 ∧ (Read dev0 ISL29125_RGB [7, 8, 9]).buf = [7, 8, 9] :=
  ⟨by decide, (claim4_stale_keeps_buffer dev0 ISL29125_RGB [7, 8, 9] (by decide)).2⟩

/-- Claim C5: reading the status register clears the interrupt-pending
bit: with irq-pending set, the first `Status` call returns a value with
bit 0 set, and an immediately following `Status` call returns a value
with bit 0 clear. -/
theorem claim5_status_read_clears_irq (d : Device) (h : d.status &&& 0x01 = 1) :
    (Status d).ret &&& 0x01 = 1 ∧ (Status (Status d).dev).ret &&& 0x01 = 0 := by
  constructor
  · exact h
  · show (d.status &&& 0xFE) &&& 0x01 = 0
    have h2 : (0xFE : Nat) &&& 0x01 = 0 := by decide
    rw [Nat.and_assoc, h2, Nat.and_zero]

/-- Witness for C5 on a device with irq-pending and conversion-done set. -/
theorem claim5_status_read_clears_irq_witness :
    devFresh.status &&& 0x01 = 1 ∧ (Status (Status devFresh).dev).ret &&& 0x01 = 0 :=
  ⟨by decide, (claim5_status_read_clears_irq devFresh (by decide)).2⟩

/-- Claim C6: `Run` on a handle constructed in trigger mode none or
interrupt fails and issues no bus transaction; in sync mode it issues
exactly the start-conversion command and succeeds exactly when the
transport accepts it. -/
theorem claim6_run_only_in_sync :
    Run (ctorMode false false) true = (false, []) ∧
    Run (ctorMode false false) false = (false, []) ∧
    Run (ctorMode false true) true = (false, []) ∧
    Run (ctorMode false true) false = (false, []) ∧
    Run (ctorMode true true) true = (false, []) ∧
    Run (ctorMode true true) false = (false, []) ∧
    Run (ctorMode true false) true = (true, [BusTx.startConv]) ∧
    Run (ctorMode true false) false = (false, [BusTx.startConv]) := by
  decide

/-- Claim C7: threshold round-trip.  Writing `vlow` through the
low-write selector and `vhigh` through the high-write selector, then
reading through the low-read and high-read selectors, returns exactly
`vlow` and `vhigh`; read-selector calls ignore their value argument;
and every call returns the 16-bit value resident in the selected
register after the call. -/
theorem claim7_threshold_roundtrip (d : Device) (vlow vhigh junk : Nat)
    (hl : vlow < 65536) (hh : vhigh < 65536) :
    (Threshold d ISL29125_LTH_W vlow).ret = vlow ∧
    (Threshold d ISL29125_LTH_W vlow).dev.thLow = vlow ∧
    (Threshold (Threshold d ISL29125_LTH_W vlow).dev ISL29125_HTH_W vhigh).ret = vhigh ∧
    (Threshold (Threshold (Threshold d ISL29125_LTH_W vlow).dev ISL29125_HTH_W
        vhigh).dev ISL29125_LTH_R junk).ret = vlow ∧
    (Threshold (Threshold (Threshold d ISL29125_LTH_W vlow).dev ISL29125_HTH_W
        vhigh).dev ISL29125_HTH_R junk).ret = vhigh ∧
    Threshold (Threshold (Threshold d ISL29125_LTH_W vlow).dev ISL29125_HTH_W
        vhigh).dev ISL29125_LTH_R junk =
      Threshold (Threshold (Threshold d ISL29125_LTH_W vlow).dev ISL29125_HTH_W
        vhigh).dev ISL29125_LTH_R 0 ∧
    Threshold (Threshold (Threshold d ISL29125_LTH_W vlow).dev ISL29125_HTH_W
        vhigh).dev ISL29125_HTH_R junk =
      Threshold (Threshold (Threshold d ISL29125_LTH_W vlow).dev ISL29125_HTH_W
        vhigh).dev ISL29125_HTH_R 0 := by
  simp [Threshold, ISL29125_LTH_W, ISL29125_HTH_W, ISL29125_LTH_R, ISL29125_HTH_R]

/-- Witness for C7 at the specification's test vector low=0x0100,
high=0x8000. -/
theorem claim7_threshold_roundtrip_witness :
    (0x0100 : Nat) < 65536 ∧
    (Threshold (Threshold (Threshold dev0 ISL29125_LTH_W 0x0100).dev ISL29125_HTH_W
        0x8000).dev ISL29125_LTH_R 0).ret = 0x0100 :=
  ⟨by decide,
   (claim7_threshold_roundtrip dev0 0x0100 0x8000 0 (by decide) (by decide)).2.2.2.1⟩

/-- Claim C3: for every accessor and every value in its enumerated legal
set, setting the value and then calling the getter (sentinel-argument
call) returns that value, and every sibling setting packed in the same
control register byte is unchanged by the setter call (read-modify-write
rewrites only the bits owned by that setting). -/
theorem claim3_rmw_roundtrip (d : Device) (m r s p ic b v : Nat)
    (hm : m ≤ 7) (hr : r = 0x00 ∨ r = 0x08) (hs : s = 0x00 ∨ s = 0x10)
    (hp : p = 0x00 ∨ p = 0x04 ∨ p = 0x08 ∨ p = 0x0C)
    (hic : ic ≤ 3) (hb : b ≤ 1)
    (hv : v ≤ 63 ∨ (128 ≤ v ∧ v ≤ 191)) :
    ((RGBmode (RGBmode d m).dev 0xFF).ret = m ∧
     (Range (RGBmode d m).dev 0xFF).ret = (Range d 0xFF).ret ∧
     (Resolution (RGBmode d m).dev 0xFF).ret = (Resolution d 0xFF).ret) ∧
    ((Range (Range d r).dev 0xFF).ret = r ∧
     (RGBmode (Range d r).dev 0xFF).ret = (RGBmode d 0xFF).ret ∧
     (Resolution (Range d r).dev 0xFF).ret = (Resolution d 0xFF).ret) ∧
    ((Resolution (Resolution d s).dev 0xFF).ret = s ∧
     (RGBmode (Resolution d s).dev 0xFF).ret = (RGBmode d 0xFF).ret ∧
     (Range (Resolution d s).dev 0xFF).ret = (Range d 0xFF).ret) ∧
    ((Persist (Persist d p).dev 0xFF).ret = p ∧
     (IRQonColor (Persist d p).dev 0xFF).ret = (IRQonColor d 0xFF).ret ∧
     (IRQonCnvDone (Persist d p).dev 0xFF).ret = (IRQonCnvDone d 0xFF).ret) ∧
    ((IRQonColor (IRQonColor d ic).dev 0xFF).ret = ic ∧
     (Persist (IRQonColor d ic).dev 0xFF).ret = (Persist d 0xFF).ret ∧
     (IRQonCnvDone (IRQonColor d ic).dev 0xFF).ret = (IRQonCnvDone d 0xFF).ret) ∧
    ((IRQonCnvDone (IRQonCnvDone d b).dev 0xFF).ret = b ∧
     (Persist (IRQonCnvDone d b).dev 0xFF).ret = (Persist d 0xFF).ret ∧
     (IRQonColor (IRQonCnvDone d b).dev 0xFF).ret = (IRQonColor d 0xFF).ret) ∧
    (IRcomp (IRcomp d v).dev 0xFF).ret = v := by
  have hm' : m ≠ 0xFF := by omega
  have hic' : ic ≠ 0xFF := by omega
  have hb' : b ≠ 0xFF := by omega
  have hv' : v ≠ 0xFF := by rcases hv with h | ⟨h1, h2⟩ <;> omega
  have hr' : r ≠ 0xFF := by rcases hr with h | h <;> omega
  have hs' : s ≠ 0xFF := by rcases hs with h | h <;> omega
  have hp' : p ≠ 0xFF := by rcases hp with h | h | h | h <;> omega
  refine ⟨⟨?_, ?_, ?_⟩, ⟨?_, ?_, ?_⟩, ⟨?_, ?_, ?_⟩, ⟨?_, ?_, ?_⟩,
    ⟨?_, ?_, ?_⟩, ⟨?_, ?_, ?_⟩, ?_⟩
  · rw [RGBmode_set_dev d m hm' hm, RGBmode_get]
    exact rmw_read _ _ _ _ (mode_legal_bits m hm).1 (by decide)
  · rw [RGBmode_set_dev d m hm' hm, Range_get, Range_get]
    exact rmw_keep _ _ _ _ (mode_legal_bits m hm).2.1 (by decide)
  · rw [RGBmode_set_dev d m hm' hm, Resolution_get, Resolution_get]
    exact rmw_keep _ _ _ _ (mode_legal_bits m hm).2.2 (by decide)
  · rw [Range_set_dev d r hr' hr, Range_get]
    rcases hr with h | h <;> subst h <;>
      exact rmw_read _ _ _ _ (by decide) (by decide)
  · rw [Range_set_dev d r hr' hr, RGBmode_get, RGBmode_get]
    rcases hr with h | h <;> subst h <;>
      exact rmw_keep _ _ _ _ (by decide) (by decide)
  · rw [Range_set_dev d r hr' hr, Resolution_get, Resolution_get]
    rcases hr with h | h <;> subst h <;>
      exact rmw_keep _ _ _ _ (by decide) (by decide)
  · rw [Resolution_set_dev d s hs' hs, Resolution_get]
    rcases hs with h | h <;> subst h <;>
      exact rmw_read _ _ _ _ (by decide) (by decide)
  · rw [Resolution_set_dev d s hs' hs, RGBmode_get, RGBmode_get]
    rcases hs with h | h <;> subst h <;>
      exact rmw_keep _ _ _ _ (by decide) (by decide)
  · rw [Resolution_set_dev d s hs' hs, Range_get, Range_get]
    rcases hs with h | h <;> subst h <;>
      exact rmw_keep _ _ _ _ (by decide) (by decide)
  · rw [Persist_set_dev d p hp' hp, Persist_get]
    rcases hp with h | h | h | h <;> subst h <;>
      exact rmw_read _ _ _ _ (by decide) (by decide)
  · rw [Persist_set_dev d p hp' hp, IRQonColor_get, IRQonColor_get]
    rcases hp with h | h | h | h <;> subst h <;>
      exact rmw_keep _ _ _ _ (by decide) (by decide)
  · rw [Persist_set_dev d p hp' hp, IRQonCnvDone_get, IRQonCnvDone_get]
    have hkeep : ((d.config3 &&& 0xF3) ||| p) &&& 0x10 = d.config3 &&& 0x10 := by
      rcases hp with h | h | h | h <;> subst h <;>
        exact rmw_keep _ _ _ _ (by decide) (by decide)
    show (if ((d.config3 &&& 0xF3) ||| p) &&& 0x10 = 0 then 0 else 1) =
      (if d.config3 &&& 0x10 = 0 then 0 else 1)
    rw [hkeep]
  · rw [IRQonColor_set_dev d ic hic' hic, IRQonColor_get]
    interval_cases ic <;> exact rmw_read _ _ _ _ (by decide) (by decide)
  · rw [IRQonColor_set_dev d ic hic' hic, Persist_get, Persist_get]
    interval_cases ic <;> exact rmw_keep _ _ _ _ (by decide) (by decide)
  · rw [IRQonColor_set_dev d ic hic' hic, IRQonCnvDone_get, IRQonCnvDone_get]
    have hkeep : ((d.config3 &&& 0xFC) ||| ic) &&& 0x10 = d.config3 &&& 0x10 := by
      interval_cases ic <;> exact rmw_keep _ _ _ _ (by decide) (by decide)
    show (if ((d.config3 &&& 0xFC) ||| ic) &&& 0x10 = 0 then 0 else 1) =
      (if d.config3 &&& 0x10 = 0 then 0 else 1)
    rw [hkeep]
  · rw [IRQonCnvDone_set_dev d b hb' hb, IRQonCnvDone_get]
    have hwrite : ((d.config3 &&& 0xEF) ||| (b <<< 4)) &&& 0x10 = b <<< 4 := by
      interval_cases b <;> exact rmw_read _ _ _ _ (by decide) (by decide)
    show (if ((d.config3 &&& 0xEF) ||| (b <<< 4)) &&& 0x10 = 0 then 0 else 1) = b
    rw [hwrite]
    interval_cases b <;> decide
  · rw [IRQonCnvDone_set_dev d b hb' hb, Persist_get, Persist_get]
    interval_cases b <;> exact rmw_keep _ _ _ _ (by decide) (by decide)
  · rw [IRQonCnvDone_set_dev d b hb' hb, IRQonColor_get, IRQonColor_get]
    interval_cases b <;> exact rmw_keep _ _ _ _ (by decide) (by decide)
  · rw [IRcomp_set_dev d v hv' hv, IRcomp_get]
    exact rmw_read _ _ _ _ (ircomp_legal_bits v hv).1 (by decide)

/-- Witness for C3 at concrete legal values on `dev0`. -/
theorem claim3_rmw_roundtrip_witness :
    (5 : Nat) ≤ 7 ∧ (RGBmode (RGBmode dev0 5).dev 0xFF).ret = 5 :=
  ⟨by decide,
   (claim3_rmw_roundtrip dev0 5 8 16 4 2 1 130 (by decide) (by decide) (by decide)
     (by decide) (by decide) (by decide) (by decide)).1.1⟩

/-- Claim C8 counterexample: the input 0xFF lies outside both legal
ranges 0..63 and 128..191, yet calling `IRcomp` with it performs a bus
transaction (the sentinel requests a read-back) and, on a device whose
stored IR-compensation field is 0, returns 0 rather than 0xFF-with-
no-transaction as the universal rejection clause demands. -/
theorem claim8_sentinel_counterexample :
    ¬ ((0xFF : Nat) ≤ 63 ∨ (128 ≤ (0xFF : Nat) ∧ (0xFF : Nat) ≤ 191)) ∧
    (IRcomp dev0 0xFF).txs ≠ [] ∧ (IRcomp dev0 0xFF).ret ≠ 0xFF := by
  decide

/-- Claim C8 (amended): `IRcomp` accepts every value in the two disjoint
legal ranges 0..63 and 128..191 (writing and returning it, in particular
at the boundaries 0, 63, 128, 191) and rejects every input outside them
other than the reserved sentinel 0xFF (which requests a read-back) —
in particular 64 and 192 — returning 0xFF and performing no bus
transaction. -/
theorem claim8_ircomp_boundaries (d : Device) (v w : Nat)
    (hv : v ≤ 63 ∨ (128 ≤ v ∧ v ≤ 191))
    (hw : ¬ (w ≤ 63 ∨ (128 ≤ w ∧ w ≤ 191))) (hw' : w ≠ 0xFF) :
    (IRcomp d v).ret = v ∧
    (IRcomp d v).txs = [BusTx.rd 0x02 1, BusTx.wr 0x02 1] ∧
    (IRcomp (IRcomp d v).dev 0xFF).ret = v ∧
    IRcomp d w = ⟨0xFF, d, []⟩ ∧
    (IRcomp d 0).ret = 0 ∧ (IRcomp d 63).ret = 63 ∧
    (IRcomp d 128).ret = 128 ∧ (IRcomp d 191).ret = 191 ∧
    IRcomp d 64 = ⟨0xFF, d, []⟩ ∧ IRcomp d 192 = ⟨0xFF, d, []⟩ := by
  have hv' : v ≠ 0xFF := by rcases hv with h | ⟨h1, h2⟩ <;> omega
  refine ⟨?_, ?_, ?_, ?_, ?_, ?_, ?_, ?_, ?_, ?_⟩
  · simp only [IRcomp]; rw [if_neg hv', if_pos hv]
  · simp only [IRcomp]; rw [if_neg hv', if_pos hv]
  · rw [IRcomp_set_dev d v hv' hv, IRcomp_get]
    exact rmw_read _ _ _ _ (ircomp_legal_bits v hv).1 (by decide)
  · simp only [IRcomp]; rw [if_neg hw', if_neg hw]
  · simp [IRcomp]
  · simp [IRcomp]
  · simp [IRcomp]
  · simp [IRcomp]
  · simp [IRcomp]
  · simp [IRcomp]

/-- Witness for amended C8 at the in-range value 130 and the illegal
non-sentinel value 64 on `dev0`. -/
theorem claim8_ircomp_boundaries_witness :
    ((130 : Nat) ≤ 63 ∨ (128 ≤ (130 : Nat) ∧ (130 : Nat) ≤ 191)) ∧
    ¬ ((64 : Nat) ≤ 63 ∨ (128 ≤ (64 : Nat) ∧ (64 : Nat) ≤ 191)) ∧
    (IRcomp (IRcomp dev0 130).dev 0xFF).ret = 130 ∧
    IRcomp dev0 64 = ⟨0xFF, dev0, []⟩ :=
  ⟨by decide, by decide,
   (claim8_ircomp_boundaries dev0 130 64 (by decide) (by decide) (by decide)).2.2.1,
   (claim8_ircomp_boundaries dev0 130 64 (by decide) (by decide) (by decide)).2.2.2.1⟩

/-- Unfolding of `RGBApp.updateRGB` in the connected case: one `Read`
of all three channels into `GRBdata`, then the three characteristics
are written from `GRBdata[1]`, `GRBdata[0]`, `GRBdata[2]`. -/
theorem updateRGB_connected (st : AppState) (h : st.connected = true) :
    updateRGB st =
      ({ st with
          data_present := (ISL29125.Read st.device ISL29125_RGB st.GRBdata).fresh,
          GRBdata := (ISL29125.Read st.device ISL29125_RGB st.GRBdata).buf,
          device := (ISL29125.Read st.device ISL29125_RGB st.GRBdata).dev,
          service :=
            { red := (ISL29125.Read st.device ISL29125_RGB st.GRBdata).buf.getD 1 0,
              green := (ISL29125.Read st.device ISL29125_RGB st.GRBdata).buf.getD 0 0,
              blue := (ISL29125.Read st.device ISL29125_RGB st.GRBdata).buf.getD 2 0 } },
       (ISL29125.Read st.device ISL29125_RGB st.GRBdata).txs) := by
  simp [updateRGB, h, updateRed, updateGreen, updateBlue]

/-- Claim C9: whenever the application is connected, `updateRGB` writes
all three BLE characteristics from the channel buffer (Red from
`buf[1]`, Green from `buf[0]`, Blue from `buf[2]`) regardless of
whether `Read` returned true; in particular, with no new conversion
available the buffer is unchanged and the stale values are
republished. -/
theorem claim9_republish_when_connected (st : AppState) (h : st.connected = true) :
    (updateRGB st).1.service.red = (updateRGB st).1.GRBdata.getD 1 0 ∧
    (updateRGB st).1.service.green = (updateRGB st).1.GRBdata.getD 0 0 ∧
    (updateRGB st).1.service.blue = (updateRGB st).1.GRBdata.getD 2 0 ∧
    (st.device.status &&& 0x02 = 0 →
      (updateRGB st).1.data_present = false ∧
      (updateRGB st).1.GRBdata = st.GRBdata ∧
      (updateRGB st).1.service.red = st.GRBdata.getD 1 0 ∧
      (updateRGB st).1.service.green = st.GRBdata.getD 0 0 ∧
      (updateRGB st).1.service.blue = st.GRBdata.getD 2 0) := by
  rw [updateRGB_connected st h]
  refine ⟨rfl, rfl, rfl, ?_⟩
  intro hstale
  have hb : (ISL29125.Read st.device ISL29125_RGB st.GRBdata).buf = st.GRBdata := by
    simp [ISL29125.Read, hstale]
  have hf : (ISL29125.Read st.device ISL29125_RGB st.GRBdata).fresh = false := by
    simp [ISL29125.Read, hstale]
  refine ⟨hf, hb, ?_, ?_, ?_⟩
  · show (ISL29125.Read st.device ISL29125_RGB st.GRBdata).buf.getD 1 0 =
      st.GRBdata.getD 1 0
    rw [hb]
  · show (ISL29125.Read st.device ISL29125_RGB st.GRBdata).buf.getD 0 0 =
      st.GRBdata.getD 0 0
    rw [hb]
  · show (ISL29125.Read st.device ISL29125_RGB st.GRBdata).buf.getD 2 0 =
      st.GRBdata.getD 2 0
    rw [hb]

/-- Witness for C9: a connected state whose device has no new
conversion; the previously read buffer [7, 8, 9] is republished. -/
theorem claim9_republish_when_connected_witness :
    stStale.connected = true ∧
    (updateRGB stStale).1.data_present = false ∧
    (updateRGB stStale).1.service.red = 8 :=
  ⟨rfl,
   ((claim9_republish_when_connected stStale rfl).2.2.2 (by decide)).1,
   (((claim9_republish_when_connected stStale rfl).2.2.2 (by decide)).2.2.1).trans
     (by decide)⟩

/-- Claim C10: the Ticker callback `updateMeasurments` performs no bus
transaction and only sets `sensorFlag`; the main loop issues the sensor
read exclusively when it observes `sensorFlag` true, and clears the
flag afterwards. -/
theorem claim10_isr_only_sets_flag (st : AppState) :
    (updateMeasurments st).2 = [] ∧
    (updateMeasurments st).1 = { st with sensorFlag := true } ∧
    (st.sensorFlag = false →
      (mainLoopIter st).2 = [] ∧ (mainLoopIter st).1.device = st.device) ∧
    (st.sensorFlag = true →
      (mainLoopIter st).2 = (updateRGB st).2 ∧
      (mainLoopIter st).1.sensorFlag = false) := by
  refine ⟨rfl, rfl, ?_, ?_⟩
  · intro h
    simp only [mainLoopIter, h]
    constructor
    · simp
    · simp only [Bool.false_eq_true, if_false]
      split <;> rfl
  · intro h
    simp only [mainLoopIter, h, if_true]
    constructor
    · simp
    · split <;> rfl

/-- Witness for C10: a state with the flag raised runs the sensor read
and lowers the flag; the ISR itself records no transaction. -/
theorem claim10_isr_only_sets_flag_witness :
    (updateMeasurments stFresh).2 = [] ∧
    (mainLoopIter stFresh).1.sensorFlag = false :=
  ⟨(claim10_isr_only_sets_flag stFresh).1,
   ((claim10_isr_only_sets_flag stFresh).2.2.2 rfl).2⟩
